import Mathlib

/-!
# Verification of the speech-separation pipeline (`src/speech.py`)

A shallow embedding of the single-request flow of `speech.py`:
`safe_read_audio` (AudioIngest.decode), `separate_speech`
(SeparationService.separate), and the `main` orchestrator that sequences
ingest → separate → render → offer-download.

External effects are captured in an `Env` record:
* `sfRead` models `soundfile.sf.read` applied to the staged copy of the
  uploaded bytes (`none` = the call raises);
* `modelLoadOk` models whether `load_separation_model()` returns normally;
* `modelSep` models `model.separate_file` applied to the staged copy of the
  uploaded bytes (`none` = inference raises);
* `plotOk`, `specOk`, `metricsOk` model whether the external rendering
  collaborator calls (`plot_waveforms`, `plot_spectrogram` for index 0 =
  original / index i = source i, and the tab-3 metric computations) return
  normally;
* `sfWriteOk i` models whether `sf.write` succeeds when staging the
  download artifact for separated source `i`.

Temporary-file lifecycle is tracked by counting `tempfile.NamedTemporaryFile`
creations (`staged`) and `os.unlink` calls (`released`), exactly at the
program points where the source performs them.
-/

/-- Raw uploaded bytes (`uploaded_file.getvalue()`). -/
abbrev Bytes := List Nat

/-- A decoded audio signal: ordered sequence of samples. -/
abbrev Signal := List Int

/-- One estimated source returned by the separation model: its sample data
(`sig.numpy().flatten()` in the source) together with the sample rate the
model produced it at.  The rate field is metadata of the external model
(the sepformer configuration fixes it at 8000 Hz); the orchestrator code
never reads it. -/
structure SepBuffer where
  samples : Signal
  rate : Nat
deriving DecidableEq

/-- Temp-file accounting: how many `NamedTemporaryFile`s have been created
and how many `os.unlink` calls have run. -/
structure TempState where
  staged : Nat
  released : Nat
deriving DecidableEq

/-- The external collaborators of one request, as observed at the call
sites in `speech.py`. -/
structure Env where
  sfRead : Bytes → Option (Signal × Nat)
  modelLoadOk : Bool
  modelSep : Bytes → Option (List SepBuffer)
  plotOk : Bool
  specOk : Nat → Bool
  metricsOk : Bool
  sfWriteOk : Nat → Bool

/-- Configuration constant of the reference model
(`speechbrain/sepformer-wsj02mix`): fixed output sample rate. -/
def output_sample_rate : Nat := 8000

/-- Configuration constant of the reference model: number of sources it
always yields. -/
def expected_source_count : Nat := 2

/-- Embedding of `safe_read_audio` (lines 21–38): stage the uploaded bytes
to a temp file, `sf.read` it, unlink on the success path, and return
`(None, None)` from the `except` handler on failure.  Note the source
performs `os.unlink` only after a successful `sf.read`; when `sf.read`
raises, control jumps to the handler and the unlink is skipped. -/
def safe_read_audio (env : Env) (data : Bytes) (s : TempState) :
    (Option Signal × Option Nat) × TempState :=
  let s1 : TempState := ⟨s.staged + 1, s.released⟩
  match env.sfRead data with
  | some (sig, sr) => ((some sig, some sr), ⟨s1.staged, s1.released + 1⟩)
  | none => ((none, none), s1)

/-- Embedding of `separate_speech` (lines 41–63): load the cached model
(`Except.error` = the loader raised, propagating out of the function),
stage the uploaded bytes to a temp file, run `model.separate_file`, and
unlink on both the success path and the `except` path, returning `none`
(Python `None`) when inference raised. -/
def separate_speech (env : Env) (data : Bytes) (s : TempState) :
    Except Unit (Option (List SepBuffer)) × TempState :=
  if env.modelLoadOk then
    let s1 : TempState := ⟨s.staged + 1, s.released⟩
    match env.modelSep data with
    | some est => (Except.ok (some est), ⟨s1.staged, s1.released + 1⟩)
    | none => (Except.ok none, ⟨s1.staged, s1.released + 1⟩)
  else
    (Except.error (), s)

/-- The deterministic download file name for source `i`
(`file_name=f"separated_signal_\x7bi\x7d.wav"`, line 220). -/
def stageFileName (i : Nat) : String :=
  "separated_signal_" ++ toString i ++ ".wav"

/-- One download artifact staged in the playback/download loop: source
index, offered file name, the sample data written, and the sample rate
passed to `sf.write` (line 210). -/
structure Artifact where
  index : Nat
  fileName : String
  samples : Signal
  writtenRate : Nat
deriving DecidableEq

/-- Whether the whole rendering block (tab1 waveform plot, tab2
spectrograms for the original and each source, tab3 metrics) runs without
raising; any single failure aborts the `try` block of `main`. -/
def renderOk (env : Env) (n : Nat) : Bool :=
  env.plotOk && env.specOk 0 &&
    (List.range n).all (fun k => env.specOk (k + 1)) && env.metricsOk

/-- Embedding of the playback/download loop (lines 204–225), source
indices starting at 1: create a temp file, `sf.write` the flattened
signal at the request's `sample_rate`, offer playback and the download
button, then unlink.  When `sf.write` raises, the staged file is left
behind and the exception propagates (first component `false`); earlier
iterations keep their offers.  Returns (completed?, offered indices,
staged artifacts, temp accounting). -/
def offerLoop (env : Env) (sr : Nat) :
    List SepBuffer → Nat → TempState →
      Bool × List Nat × List Artifact × TempState
  | [], _, s => (true, [], [], s)
  | b :: rest, i, s =>
    let s1 : TempState := ⟨s.staged + 1, s.released⟩
    if env.sfWriteOk i then
      let a : Artifact := ⟨i, stageFileName i, b.samples, sr⟩
      let s2 : TempState := ⟨s1.staged, s1.released + 1⟩
      let r := offerLoop env sr rest (i + 1) s2
      (r.1, i :: r.2.1, a :: r.2.2.1, r.2.2.2)
    else
      (false, [], [], s1)

/-- Terminal outcome of one request in `main`. -/
inductive Stage where
  /-- "Failed to read the audio file..." (line 233). -/
  | failedIngest
  /-- "Failed to separate speech signals." (line 227). -/
  | failedSeparation
  /-- The outer `except` handler, "Unexpected error" (lines 229–231). -/
  | failedUnknown
  /-- The `if uploaded_file` body ran to completion. -/
  | done
deriving DecidableEq

/-- Observable result of one request through `main`. -/
structure RunResult where
  stage : Stage
  /-- `separate_speech` was called. -/
  sepInvoked : Bool
  /-- The success message / visualization tabs section was entered. -/
  renderingEntered : Bool
  /-- The "Playback & Download" section was entered. -/
  offeringEntered : Bool
  /-- Source indices whose playback and download button were offered. -/
  offered : List Nat
  /-- Download artifacts staged (with the rate `sf.write` used). -/
  artifacts : List Artifact
  temps : TempState
deriving DecidableEq

/-- Embedding of the body of `main` (lines 100–233) for one uploaded
file: ingest via `safe_read_audio`, gate on `original_signal is not None`,
then inside the `try`: `separate_speech`, gate on
`separated_signals is not None`, rendering, and the playback/download
loop; every exception inside the `try` lands in the outer handler
(`Stage.failedUnknown`) with no further cleanup. -/
def main_run (env : Env) (data : Bytes) : RunResult :=
  let r1 := safe_read_audio env data ⟨0, 0⟩
  match r1 with
  | ((some _sig, osr), s1) =>
    let sr := osr.getD 0
    let r2 := separate_speech env data s1
    match r2.1 with
    | Except.error _ => ⟨Stage.failedUnknown, true, false, false, [], [], r2.2⟩
    | Except.ok none => ⟨Stage.failedSeparation, true, false, false, [], [], r2.2⟩
    | Except.ok (some seps) =>
      if renderOk env seps.length then
        let r3 := offerLoop env sr seps 1 r2.2
        if r3.1 then
          ⟨Stage.done, true, true, true, r3.2.1, r3.2.2.1, r3.2.2.2⟩
        else
          ⟨Stage.failedUnknown, true, true, true, r3.2.1, r3.2.2.1, r3.2.2.2⟩
      else
        ⟨Stage.failedUnknown, true, true, false, [], [], r2.2⟩
  | ((none, _), s1) => ⟨Stage.failedIngest, false, false, false, [], [], s1⟩

/-- Arbitrary uploaded bytes for concrete runs. -/
def demoBytes : Bytes := [82, 73, 70, 70, 0, 1, 2, 3]

/-- Concrete decoded original signal used in concrete runs. -/
def origSig : Signal := [0, 1, 0, -1]

/-- Concrete samples of separated source 1. -/
def sepSamples1 : Signal := [1, 0]

/-- Concrete samples of separated source 2. -/
def sepSamples2 : Signal := [0, 1]

/-- A run where every collaborator succeeds: the upload decodes at
16000 Hz and the model yields two sources at its fixed 8000 Hz. -/
def envHappy : Env :=
  ⟨fun _ => some (origSig, 16000), true,
   fun _ => some [⟨sepSamples1, 8000⟩, ⟨sepSamples2, 8000⟩],
   true, fun _ => true, true, fun _ => true⟩

example :
    (main_run envHappy demoBytes).stage = Stage.done ∧
    (main_run envHappy demoBytes).temps = ⟨4, 4⟩ ∧
    (main_run envHappy demoBytes).offered = [1, 2] := by decide

example :
    (main_run envHappy demoBytes).artifacts =
      [⟨1, "separated_signal_1.wav", sepSamples1, 16000⟩,
       ⟨2, "separated_signal_2.wav", sepSamples2, 16000⟩] := by decide

/-- A run on malformed bytes: `sf.read` raises on everything. -/
def envBadBytes : Env :=
  ⟨fun _ => none, true, fun _ => none, true, fun _ => true, true,
   fun _ => true⟩

/-- A run where ingest succeeds but `model.separate_file` raises. -/
def envSepFail : Env :=
  ⟨fun _ => some (origSig, 16000), true, fun _ => none,
   true, fun _ => true, true, fun _ => true⟩

/-- A run like `envHappy` except `sf.write` raises while staging the
download artifact for source 1 (e.g., disk full). -/
def envWriteFail : Env :=
  ⟨fun _ => some (origSig, 16000), true,
   fun _ => some [⟨sepSamples1, 8000⟩, ⟨sepSamples2, 8000⟩],
   true, fun _ => true, true, fun i => !(i == 1)⟩

/-- A run like `envHappy` except the spectrogram of separated source 2
raises; every other rendering call (including source 1's spectrogram)
succeeds. -/
def envSpecFail : Env :=
  ⟨fun _ => some (origSig, 16000), true,
   fun _ => some [⟨sepSamples1, 8000⟩, ⟨sepSamples2, 8000⟩],
   true, fun k => !(k == 2), true, fun _ => true⟩

/-- A run where the model call returns an empty (but present) result; the
waveform plot then raises on it. -/
def envEmptySep : Env :=
  ⟨fun _ => some (origSig, 16000), true, fun _ => some [],
   false, fun _ => true, true, fun _ => true⟩

/-- C1: the main flow does NOT release every per-source download staging
on every exit path.  Concrete run: ingest and separation succeed (their
two temp files are staged and released), rendering succeeds, and then
`sf.write` raises while staging the download file for source 1: control
jumps to the outer `except` handler, the `os.unlink` on line 225 is
skipped, and the request terminates in the failure state with 3 files
staged but only 2 released — one staged artifact remains on disk. -/
theorem c1_download_staging_leak_on_write_failure :
    (main_run envWriteFail demoBytes).stage = Stage.failedUnknown ∧
    (main_run envWriteFail demoBytes).temps.staged = 3 ∧
    (main_run envWriteFail demoBytes).temps.released = 2 := by decide

/-- C2: `safe_read_audio` does NOT clean up its staged temp file on the
failure path.  Concrete run on bytes `sf.read` rejects: the function
returns `(None, None)` from its handler with 1 file staged and 0
released — the `os.unlink` on line 32 is only reached after a successful
read. -/
theorem c2_safe_read_audio_leak_on_decode_failure :
    safe_read_audio envBadBytes demoBytes ⟨0, 0⟩ =
      ((none, none), ⟨1, 0⟩) := by decide

/-- C3: the staged download artifacts carry the uploaded input's original
sample rate, not the model's fixed 8000 Hz.  Concrete run: the upload
decodes at 16000 Hz and the model yields two sources at 8000 Hz; line 210
(`sf.write(temp_file.name, signal, sample_rate)`) writes both download
WAVs at 16000 Hz.  The deterministic names `separated_signal_<i>.wav`
are as claimed. -/
theorem c3_download_artifact_written_at_input_rate :
    (main_run envHappy demoBytes).artifacts =
      [⟨1, "separated_signal_1.wav", sepSamples1, 16000⟩,
       ⟨2, "separated_signal_2.wav", sepSamples2, 16000⟩] ∧
    (main_run envHappy demoBytes).stage = Stage.done ∧
    (∀ a ∈ (main_run envHappy demoBytes).artifacts,
      a.writtenRate ≠ output_sample_rate) ∧
    (∀ b ∈ [SepBuffer.mk sepSamples1 8000, SepBuffer.mk sepSamples2 8000],
      b.rate = output_sample_rate) := by decide

/-- C4: whenever the decoder raises on the uploaded bytes,
`safe_read_audio` returns the error value `(None, None)` (it does not
propagate the fault), and `main` terminates the request at the ingest
failure state without ever calling `separate_speech`. -/
theorem c4_malformed_input_aborts_before_separation
    (env : Env) (data : Bytes) (s : TempState)
    (h : env.sfRead data = none) :
    (safe_read_audio env data s).1 = (none, none) ∧
    (main_run env data).stage = Stage.failedIngest ∧
    (main_run env data).sepInvoked = false := by
  simp [safe_read_audio, main_run, h]

/-- Witness for C4 at a concrete malformed-input run. -/
theorem c4_witness :
    (safe_read_audio envBadBytes demoBytes ⟨0, 0⟩).1 = (none, none) ∧
    (main_run envBadBytes demoBytes).stage = Stage.failedIngest ∧
    (main_run envBadBytes demoBytes).sepInvoked = false :=
  c4_malformed_input_aborts_before_separation envBadBytes demoBytes ⟨0, 0⟩ rfl

/-- C5: whenever `load_separation_model` succeeds (so the staging on
lines 46–48 runs at all), `separate_speech` stages exactly one temp file
and unlinks exactly one temp file, on the inference-success path and the
inference-failure path alike; when inference raises, it returns the error
value `None`, and `main` then terminates only the current request at the
separation failure state. -/
theorem c5_separate_speech_releases_staging_both_paths
    (env : Env) (data : Bytes) (s : TempState)
    (h : env.modelLoadOk = true) :
    (separate_speech env data s).2.staged = s.staged + 1 ∧
    (separate_speech env data s).2.released = s.released + 1 ∧
    (env.modelSep data = none →
      (separate_speech env data s).1 = Except.ok none) ∧
    ((env.sfRead data).isSome = true → env.modelSep data = none →
      (main_run env data).stage = Stage.failedSeparation) := by
  refine ⟨?_, ?_, ?_, ?_⟩
  · simp only [separate_speech, h, if_true]
    cases env.modelSep data <;> rfl
  · simp only [separate_speech, h, if_true]
    cases env.modelSep data <;> rfl
  · intro hm
    simp [separate_speech, h, hm]
  · intro hr hm
    cases hv : env.sfRead data with
    | none => rw [hv] at hr; simp at hr
    | some v =>
      obtain ⟨sig, sr⟩ := v
      simp [main_run, safe_read_audio, separate_speech, h, hm, hv]

/-- Witness for C5 at a concrete inference-failure run. -/
theorem c5_witness :
    (separate_speech envSepFail demoBytes ⟨1, 1⟩).2.staged = 1 + 1 ∧
    (separate_speech envSepFail demoBytes ⟨1, 1⟩).2.released = 1 + 1 ∧
    (envSepFail.modelSep demoBytes = none →
      (separate_speech envSepFail demoBytes ⟨1, 1⟩).1 = Except.ok none) ∧
    ((envSepFail.sfRead demoBytes).isSome = true →
      envSepFail.modelSep demoBytes = none →
      (main_run envSepFail demoBytes).stage = Stage.failedSeparation) :=
  c5_separate_speech_releases_staging_both_paths envSepFail demoBytes ⟨1, 1⟩ rfl

/-- C10: `safe_read_audio` is all-or-nothing — the signal component is
present exactly when the sample-rate component is present (both mirror
whether `sf.read` succeeded), so the orchestrator's single
`original_signal is not None` check detects ingest failure exactly. -/
theorem c10_safe_read_audio_all_or_nothing
    (env : Env) (data : Bytes) (s : TempState) :
    (safe_read_audio env data s).1.1.isSome = (env.sfRead data).isSome ∧
    (safe_read_audio env data s).1.2.isSome = (env.sfRead data).isSome ∧
    ((main_run env data).stage = Stage.failedIngest ↔
      env.sfRead data = none) := by
  cases hv : env.sfRead data with
  | none => simp [safe_read_audio, main_run, hv]
  | some v =>
    obtain ⟨sig, sr⟩ := v
    refine ⟨by simp [safe_read_audio, hv], by simp [safe_read_audio, hv], ?_⟩
    simp only [main_run, safe_read_audio, hv]
    cases hsep : (separate_speech env data ⟨0 + 1, 0 + 1⟩).1 with
    | error e => simp
    | ok o =>
      cases o with
      | none => simp
      | some seps =>
        simp only
        split
        · split <;> simp
        · simp

/-- Witness for C10 at a concrete malformed-input run. -/
theorem c10_witness :
    (safe_read_audio envBadBytes demoBytes ⟨0, 0⟩).1.1.isSome =
      (envBadBytes.sfRead demoBytes).isSome ∧
    (safe_read_audio envBadBytes demoBytes ⟨0, 0⟩).1.2.isSome =
      (envBadBytes.sfRead demoBytes).isSome ∧
    ((main_run envBadBytes demoBytes).stage = Stage.failedIngest ↔
      envBadBytes.sfRead demoBytes = none) :=
  c10_safe_read_audio_all_or_nothing envBadBytes demoBytes ⟨0, 0⟩

/-- C6 counterexample: in the run `envSpecFail`, separation succeeds with
two sources and every rendering call for source 1 succeeds, yet because
source 2's spectrogram raises, the request lands in the outer `except`
handler: the "Playback & Download" section is never entered and NO source
is offered — refuting the claim that the request still reaches the
Offering stage and continues to offer the outputs whose rendering
succeeded. -/
theorem c6_render_failure_skips_offering_counterexample :
    envSpecFail.modelSep demoBytes =
      some [⟨sepSamples1, 8000⟩, ⟨sepSamples2, 8000⟩] ∧
    envSpecFail.specOk 1 = true ∧
    (main_run envSpecFail demoBytes).stage = Stage.failedUnknown ∧
    (main_run envSpecFail demoBytes).offeringEntered = false ∧
    (main_run envSpecFail demoBytes).offered = [] := by decide

/-- C6 (amended): any rendering failure (waveform plot, any spectrogram,
or the metrics) after a successful separation is caught by the outer
`except` handler: the request terminates in the unknown-failure state
without entering the Offering section, and no playback/download is
offered for any output — including outputs whose own rendering
succeeded.  The separation result itself was still produced. -/
theorem c6_render_failure_aborts_request
    (env : Env) (data : Bytes) (seps : List SepBuffer)
    (h1 : (env.sfRead data).isSome = true)
    (h2 : env.modelLoadOk = true)
    (h3 : env.modelSep data = some seps)
    (h4 : renderOk env seps.length = false) :
    (main_run env data).stage = Stage.failedUnknown ∧
    (main_run env data).renderingEntered = true ∧
    (main_run env data).offeringEntered = false ∧
    (main_run env data).offered = [] := by
  cases hv : env.sfRead data with
  | none => rw [hv] at h1; simp at h1
  | some v =>
    obtain ⟨sig, sr⟩ := v
    simp [main_run, safe_read_audio, separate_speech, h2, h3, h4, hv]

/-- Witness for C6 (amended) at the concrete run `envSpecFail`. -/
theorem c6_witness :
    (main_run envSpecFail demoBytes).stage = Stage.failedUnknown ∧
    (main_run envSpecFail demoBytes).renderingEntered = true ∧
    (main_run envSpecFail demoBytes).offeringEntered = false ∧
    (main_run envSpecFail demoBytes).offered = [] :=
  c6_render_failure_aborts_request envSpecFail demoBytes
    [⟨sepSamples1, 8000⟩, ⟨sepSamples2, 8000⟩] rfl rfl rfl rfl

/-- C7 counterexample: in the run `envEmptySep` the model call returns an
empty but present result; `main`'s `separated_signals is not None` check
accepts it, so the rendering section IS entered (and the request does not
terminate at the separation-failure state) — refuting the claim that an
empty separation result transitions to Failed(separation) instead of
rendering. -/
theorem c7_empty_separation_enters_rendering_counterexample :
    envEmptySep.modelSep demoBytes = some [] ∧
    (main_run envEmptySep demoBytes).renderingEntered = true ∧
    (main_run envEmptySep demoBytes).stage ≠ Stage.failedSeparation := by
  decide

/-- C7 (amended): the rendering section is entered exactly when ingest
succeeded, the model loaded, and `separate_speech` returned a present
(non-`None`) result — emptiness is not checked; and whenever the
separation result is absent (`None`), the request terminates at the
separation-failure state instead of rendering. -/
theorem c7_rendering_iff_separation_present (env : Env) (data : Bytes) :
    (main_run env data).renderingEntered =
      ((env.sfRead data).isSome &&
        (env.modelLoadOk && (env.modelSep data).isSome)) ∧
    ((env.sfRead data).isSome = true → env.modelLoadOk = true →
      env.modelSep data = none →
      (main_run env data).stage = Stage.failedSeparation ∧
      (main_run env data).renderingEntered = false) := by
  cases hv : env.sfRead data with
  | none => simp [main_run, safe_read_audio, hv]
  | some v =>
    obtain ⟨sig, sr⟩ := v
    cases hl : env.modelLoadOk with
    | false => simp [main_run, safe_read_audio, separate_speech, hv, hl]
    | true =>
      cases hm : env.modelSep data with
      | none => simp [main_run, safe_read_audio, separate_speech, hv, hl, hm]
      | some seps =>
        refine ⟨?_, by simp [hm]⟩
        simp only [main_run, safe_read_audio, separate_speech, hv, hl, hm,
          if_true, Option.isSome_some, Bool.and_true, Bool.true_and]
        split
        · split <;> rfl
        · rfl

/-- Witness for C7 (amended) at the concrete run `envSepFail`. -/
theorem c7_witness :
    (main_run envSepFail demoBytes).renderingEntered =
      ((envSepFail.sfRead demoBytes).isSome &&
        (envSepFail.modelLoadOk &&
          (envSepFail.modelSep demoBytes).isSome)) ∧
    ((envSepFail.sfRead demoBytes).isSome = true →
      envSepFail.modelLoadOk = true →
      envSepFail.modelSep demoBytes = none →
      (main_run envSepFail demoBytes).stage = Stage.failedSeparation ∧
      (main_run envSepFail demoBytes).renderingEntered = false) :=
  c7_rendering_iff_separation_present envSepFail demoBytes

/-- Modelled from the spec: the external pretrained separation model
(`speechbrain/sepformer-wsj02mix`, loaded by `load_separation_model`) is
not in this repository; the spec's contract for it is that any produced
result has exactly `expected_source_count` buffers, each at the model's
fixed `output_sample_rate`. -/
def ModelContract (m : Bytes → Option (List SepBuffer)) : Prop :=
  ∀ data est, m data = some est →
    est.length = expected_source_count ∧
      ∀ b ∈ est, b.rate = output_sample_rate

/-- C8: against one fixed model handle (one `Env`), `separate_speech` is
deterministic in the uploaded bytes — its result does not depend on the
temp-file state, so two calls on the same bytes agree — and under the
spec's model contract every successful result has exactly
`expected_source_count` buffers, each at `output_sample_rate`. -/
theorem c8_separate_deterministic_count_and_rate
    (env : Env) (data : Bytes) (s t : TempState)
    (hm : ModelContract env.modelSep) :
    (separate_speech env data s).1 = (separate_speech env data t).1 ∧
    ∀ est, (separate_speech env data s).1 = Except.ok (some est) →
      est.length = expected_source_count ∧
        ∀ b ∈ est, b.rate = output_sample_rate := by
  constructor
  · cases hl : env.modelLoadOk with
    | false => simp [separate_speech, hl]
    | true =>
      simp only [separate_speech, hl, if_true]
      cases env.modelSep data <;> rfl
  · intro est h
    cases hl : env.modelLoadOk with
    | false => simp [separate_speech, hl] at h
    | true =>
      cases hmd : env.modelSep data with
      | none => simp [separate_speech, hl, hmd] at h
      | some l =>
        simp only [separate_speech, hl, hmd, if_true, Except.ok.injEq,
          Option.some.injEq] at h
        subst h
        exact hm data l hmd

/-- Witness for C8: the concrete model of `envHappy` satisfies the spec
contract, and the two calls on `demoBytes` (from distinct temp states)
agree with two buffers at 8000 Hz. -/
theorem c8_witness :
    ModelContract envHappy.modelSep ∧
    ((separate_speech envHappy demoBytes ⟨0, 0⟩).1 =
        (separate_speech envHappy demoBytes ⟨5, 2⟩).1 ∧
      ∀ est, (separate_speech envHappy demoBytes ⟨0, 0⟩).1 =
          Except.ok (some est) →
        est.length = expected_source_count ∧
          ∀ b ∈ est, b.rate = output_sample_rate) := by
  have hc : ModelContract envHappy.modelSep := by
    intro d est h
    injection h with h
    subst h
    decide
  exact ⟨hc,
    c8_separate_deterministic_count_and_rate envHappy demoBytes ⟨0, 0⟩ ⟨5, 2⟩ hc⟩
